import Mathlib

/-!
Verification of the `Collection` embedding store (`src/llm/embeddings.py`).

The development shallowly embeds the `Collection` class: the sqlite database
becomes an explicit `Db` value (the `collections` and `embeddings` tables as
lists of rows, plus a flag recording whether the schema migrations have run
and the next collection rowid), and each method becomes a function threading
the database and handle state explicitly, returning `Except Err` for the
exceptions the Python code can raise.

External collaborators that are not under `src/` (the `llm.encode`/`llm.decode`
vector codec, `llm.cosine_similarity`, the model registry
`llm.get_embedding_model`, and the `embeddings_migrations` schema script) are
modelled from the spec or taken as parameters, as noted on each definition.

Python truthiness matters in three places of the source and is modelled
faithfully: `if model and model_id and ...` (an empty-string `model_id` is
falsy), `if skip_id:` (an empty-string `skip_id` is falsy), and
`json.dumps(metadata) if metadata else None`.
-/

/-- The distinguishable error kinds the embedded methods can raise.
`modelMismatch` is `ValueError("model_id does not match model.model_id")`;
`noModel` is `ValueError("No model_id specified and no model found with that name")`;
`idNotFound` is `ValueError("ID not found")`;
`uniquenessViolation` is the sqlite IntegrityError on a duplicate primary key;
`notImplemented` is Python's `NotImplementedError`;
`noSuchTable` is sqlite's OperationalError when a queried table does not exist. -/
inductive Err where
  | modelMismatch
  | noModel
  | idNotFound
  | uniquenessViolation
  | notImplemented
  | noSuchTable
deriving DecidableEq, Repr

/-- An embedding model capability: `model_id` property and `embed(text) -> vector`.
A vector element (an already single-precision float) is represented by its
32-bit pattern, a `Nat` below `2 ^ 32`. -/
structure EmbeddingModel where
  model_id : String
  embed : String → List Nat

/-- A row of the `collections` table: `collections(id PK, name UNIQUE, model)`. -/
structure CollectionRow where
  id : Nat
  name : String
  model : String
deriving DecidableEq, Repr

/-- A row of the `embeddings` table:
`embeddings(collection_id, id, embedding BLOB, content, metadata)`.
The `embedding` field is the encoded blob, a list of bytes. -/
structure EmbeddingRow where
  collection_id : Nat
  id : String
  embedding : List Nat
  content : Option String
  metadata : Option String
deriving DecidableEq, Repr

/-- The sqlite database state: whether the schema migrations have been applied
(`db["collections"].exists()` in the source), the two tables in storage order,
and the rowid the next inserted collection row will receive (`last_pk`). -/
structure Db where
  schemaInitialized : Bool
  collections : List CollectionRow
  embeddings : List EmbeddingRow
  nextCollectionId : Nat

/-- The in-memory state of a `Collection` handle: `self.name`, `self._model`,
`self._model_id`, `self._id`. -/
structure CollectionState where
  name : String
  _model : Option EmbeddingModel
  _model_id : Option String
  _id : Option Nat

/-- Modelled from the spec: `embeddings_migrations.apply` is an idempotent
schema initializer (the migration script is not under `src/`): it creates the
two tables, empty, only if they do not already exist. -/
def applyMigrations (db : Db) : Db :=
  if db.schemaInitialized then db
  else { schemaInitialized := true, collections := [], embeddings := [],
         nextCollectionId := 1 }

/-- `self.db["collections"].rows_where("name = ?", [self.name])`, first row:
the first collection row whose `name` matches. -/
def Db.lookupCollection (db : Db) (name : String) : Option CollectionRow :=
  db.collections.find? (fun r => r.name == name)

/-- `Collection.model`: return `self._model` if bound, else resolve
`self._model_id` through the external registry (`llm.get_embedding_model`,
passed as the `registry` parameter; `none` models `UnknownModelError`),
caching the result in `self._model`; on failure raise
`ValueError("No model_id specified and no model found with that name")`. -/
def Collection.modelOp (registry : Option String → Option EmbeddingModel)
    (c : CollectionState) : Except Err (EmbeddingModel × CollectionState) :=
  match c._model with
  | some m => .ok (m, c)
  | none =>
    match registry c._model_id with
    | some m => .ok (m, { c with _model := some m })
    | none => .error .noModel

/-- The lookup-or-create step of `Collection.id`, run on the migrated
database: either adopt the found row's `id` (adopting its stored `model` only
when `self._model_id is None` — a caller-supplied identifier is kept), or
resolve the model, insert a new row named after it, and adopt the row's
`last_pk`. -/
def Collection.idResolve (registry : Option String → Option EmbeddingModel)
    (db : Db) (c : CollectionState) :
    Except Err (Nat × CollectionState × Db) :=
  match db.lookupCollection c.name with
  | some row =>
    .ok (row.id,
      { c with
        _id := some row.id,
        _model_id := match c._model_id with
          | none => some row.model
          | some m => some m },
      db)
  | none =>
    match Collection.modelOp registry c with
    | .error e => .error e
    | .ok (m, c) =>
      .ok (db.nextCollectionId,
        { c with _id := some db.nextCollectionId },
        { db with
          collections :=
            db.collections ++ [⟨db.nextCollectionId, c.name, m.model_id⟩],
          nextCollectionId := db.nextCollectionId + 1 })

/-- `Collection.id`, entry point: return the cached `self._id` if set,
otherwise ensure the schema exists and resolve or create the row. -/
def Collection.idOp (registry : Option String → Option EmbeddingModel)
    (db : Db) (c : CollectionState) :
    Except Err (Nat × CollectionState × Db) :=
  match c._id with
  | some i => .ok (i, c, db)
  | none =>
    Collection.idResolve registry
      (if db.schemaInitialized then db else applyMigrations db) c

/-- The constructor's fail-fast consistency check
`if model and model_id and model.model_id != model_id`: note that in Python an
empty-string `model_id` is falsy, so the check is skipped for it. -/
def mismatchCheck (model : Option EmbeddingModel) (model_id : Option String) :
    Bool :=
  match model, model_id with
  | some m, some mid => mid != "" && m.model_id != mid
  | _, _ => false

/-- `Collection.__init__`: store the arguments, run the consistency check, and
eagerly resolve the identity via `self._id = self.id()`. -/
def Collection.init (registry : Option String → Option EmbeddingModel)
    (db : Db) (name : String) (model : Option EmbeddingModel)
    (model_id : Option String) : Except Err (CollectionState × Db) :=
  if mismatchCheck model model_id then .error .modelMismatch
  else
    match Collection.idOp registry db
        { name := name, _model := model, _model_id := model_id, _id := none } with
    | .error e => .error e
    | .ok (_, c, db) => .ok (c, db)

/-- `Collection.count`: `select count(*) from embeddings where collection_id =
(select id from collections where name = ?)`. The scalar subquery yields the
first matching row's `id` or NULL; a NULL `collection_id` matches no row, so a
missing collection counts 0. The query errors only if the tables themselves do
not exist. -/
def Collection.countOp (db : Db) (name : String) : Except Err Nat :=
  if db.schemaInitialized then
    .ok (match db.lookupCollection name with
      | none => 0
      | some row =>
        (db.embeddings.filter (fun e => e.collection_id == row.id)).length)
  else .error .noSuchTable

/-- Modelled from the spec: the `embeddings` table created by
`embeddings_migrations` (the migration script is not under `src/`) has
`PRIMARY KEY(collection_id, id)`, so `.insert` fails with a uniqueness
violation when the key already exists, and otherwise appends the row. -/
def Db.insertEmbedding (db : Db) (row : EmbeddingRow) : Except Err Db :=
  if db.embeddings.any
      (fun r => r.collection_id == row.collection_id && r.id == row.id)
  then .error .uniquenessViolation
  else .ok { db with embeddings := db.embeddings ++ [row] }

/-- Modelled from the spec: `llm.encode` (`src/` lacks `llm/__init__.py`)
writes each element — a single-precision float represented by its 32-bit
pattern — as 4 little-endian bytes, in input order, with no separator or
header. -/
def encode (v : List Nat) : List Nat :=
  (v.map (fun w =>
    [w % 256, w / 256 % 256, w / 256 ^ 2 % 256, w / 256 ^ 3 % 256])).flatten

/-- Modelled from the spec: `llm.decode` reads the blob as a contiguous run of
4-byte little-endian values, failing (`none`) if the length is not a multiple
of 4. -/
def decode : List Nat → Option (List Nat)
  | [] => some []
  | b0 :: b1 :: b2 :: b3 :: rest =>
    (decode rest).map
      (fun ws => (b0 + b1 * 256 + b2 * 256 ^ 2 + b3 * 256 ^ 3) :: ws)
  | _ => none

/-- The record `Collection.embed` inserts: `content` is kept only when
`store`, and `json.dumps(metadata) if metadata else None` keeps the serialized
metadata only when truthy (here the serialized form itself is passed in, with
the empty string standing for a falsy metadata value). -/
def embedRow (cid : Nat) (id text : String) (metadata : Option String)
    (store : Bool) (vec : List Nat) : EmbeddingRow :=
  { collection_id := cid, id := id,
    embedding := encode vec,
    content := if store then some text else none,
    metadata := match metadata with
      | some s => if s == "" then none else some s
      | none => none }

/-- `Collection.embed`: resolve the model, embed the text, resolve the
collection id, and insert the record. -/
def Collection.embedOp (registry : Option String → Option EmbeddingModel)
    (db : Db) (c : CollectionState) (id text : String)
    (metadata : Option String) (store : Bool) :
    Except Err (CollectionState × Db) :=
  match Collection.modelOp registry c with
  | .error e => .error e
  | .ok (m, c) =>
    match Collection.idOp registry db c with
    | .error e => .error e
    | .ok (cid, c, db) =>
      match db.insertEmbedding (embedRow cid id text metadata store (m.embed text)) with
      | .error e => .error e
      | .ok db => .ok (c, db)

/-- `Collection.embed_multi`: `raise NotImplementedError`. -/
def Collection.embed_multi (db : Db) (c : CollectionState)
    (id_text_map : List (String × String)) (store : Bool) :
    Except Err (CollectionState × Db) :=
  .error .notImplemented

/-- `Collection.embed_multi_with_metadata`: `raise NotImplementedError`. -/
def Collection.embed_multi_with_metadata (db : Db) (c : CollectionState)
    (id_text_metadata_map : List (String × (String × List (String × String)))) :
    Except Err (CollectionState × Db) :=
  .error .notImplemented

/-- The `where` clause built by `similar_by_vector`: always
`collection_id = ?`, plus `id != ?` only when `skip_id` is truthy (Python's
`if skip_id:` — `None` and the empty string are falsy). -/
def skipFilter (skip_id : Option String) (r : EmbeddingRow) : Bool :=
  match skip_id with
  | some s => if s == "" then true else r.id != s
  | none => true

/-- `Collection.similar_by_vector`: resolve the collection id, score every
matching row's stored blob with the registered `distance_score` function
(`cosine_similarity(decode(blob), vector)` in the source; the composite is the
`score` parameter, since codec and scoring live outside `src/`), then
`order by score desc limit number`. -/
def Collection.similar_by_vector
    (registry : Option String → Option EmbeddingModel) (db : Db)
    (c : CollectionState) (score : List Nat → Rat) (number : Nat)
    (skip_id : Option String) :
    Except Err (CollectionState × Db × List (String × Rat)) :=
  match Collection.idOp registry db c with
  | .error e => .error e
  | .ok (cid, c, db) =>
    let rows := db.embeddings.filter
      (fun r => r.collection_id == cid && skipFilter skip_id r)
    let scored := rows.map (fun r => (r.id, score r.embedding))
    .ok (c, db, (scored.mergeSort (fun a b => decide (b.2 ≤ a.2))).take number)

/-- `Collection.similar_by_id`: fetch the record's blob (raising
`ValueError("ID not found")` when absent), decode it as the comparison vector,
and call `similar_by_vector` with `skip_id = id`. The `sim` parameter models
`fun blob => cosine_similarity(decode(blob), decode(fetched))`, the scoring
against the fetched record's blob (codec and cosine live outside `src/`). -/
def Collection.similar_by_id
    (registry : Option String → Option EmbeddingModel) (db : Db)
    (c : CollectionState) (sim : List Nat → List Nat → Rat) (id : String)
    (number : Nat) :
    Except Err (CollectionState × Db × List (String × Rat)) :=
  match Collection.idOp registry db c with
  | .error e => .error e
  | .ok (cid, c, db) =>
    match db.embeddings.filter
        (fun r => r.collection_id == cid && r.id == id) with
    | [] => .error .idNotFound
    | m :: _ =>
      Collection.similar_by_vector registry db c
        (fun other => sim other m.embedding) number (some id)

/-! ### Helper lemmas shared across the verification -/

/-- `Collection.id` with a cached `self._id` returns it and touches nothing. -/
theorem Collection.idOp_cached (registry : Option String → Option EmbeddingModel)
    (db : Db) (c : CollectionState) (i : Nat) (h : c._id = some i) :
    Collection.idOp registry db c = .ok (i, c, db) := by
  unfold Collection.idOp
  rw [h]

/-- A successful lookup-or-create step caches the returned id in the handle. -/
theorem Collection.idResolve_sets_id
    (registry : Option String → Option EmbeddingModel)
    (db : Db) (c : CollectionState) (i : Nat) (c' : CollectionState) (db' : Db)
    (h : Collection.idResolve registry db c = .ok (i, c', db')) :
    c'._id = some i := by
  unfold Collection.idResolve at h
  cases hfind : db.lookupCollection c.name with
  | some row => rw [hfind] at h; cases h; rfl
  | none =>
    rw [hfind] at h
    cases hmo : Collection.modelOp registry c with
    | error e => rw [hmo] at h; cases h
    | ok p => rw [hmo] at h; cases h; rfl

/-- A successful `Collection.id` caches the returned id in the handle. -/
theorem Collection.idOp_sets_id
    (registry : Option String → Option EmbeddingModel)
    (db : Db) (c : CollectionState) (i : Nat) (c' : CollectionState) (db' : Db)
    (h : Collection.idOp registry db c = .ok (i, c', db')) :
    c'._id = some i := by
  unfold Collection.idOp at h
  cases hid : c._id with
  | some j => rw [hid] at h; cases h; exact hid
  | none =>
    rw [hid] at h
    exact Collection.idResolve_sets_id registry _ c i c' db' h

/-- The lookup-or-create step preserves a bound model on the handle. -/
theorem Collection.idResolve_keeps_model
    (registry : Option String → Option EmbeddingModel)
    (db : Db) (c : CollectionState) (m : EmbeddingModel) (i : Nat)
    (c' : CollectionState) (db' : Db)
    (hm : c._model = some m)
    (h : Collection.idResolve registry db c = .ok (i, c', db')) :
    c'._model = some m := by
  unfold Collection.idResolve at h
  cases hfind : db.lookupCollection c.name with
  | some row => rw [hfind] at h; cases h; exact hm
  | none =>
    rw [hfind] at h
    rw [show Collection.modelOp registry c = .ok (m, c) by
      unfold Collection.modelOp; rw [hm]] at h
    cases h; exact hm

/-- A successful `Collection.id` preserves a bound model on the handle. -/
theorem Collection.idOp_keeps_model
    (registry : Option String → Option EmbeddingModel)
    (db : Db) (c : CollectionState) (m : EmbeddingModel) (i : Nat)
    (c' : CollectionState) (db' : Db)
    (hm : c._model = some m)
    (h : Collection.idOp registry db c = .ok (i, c', db')) :
    c'._model = some m := by
  unfold Collection.idOp at h
  cases hid : c._id with
  | some j => rw [hid] at h; cases h; exact hm
  | none =>
    rw [hid] at h
    exact Collection.idResolve_keeps_model registry _ c m i c' db' hm h

/-- `Collection.model` never raises the constructor's mismatch error. -/
theorem Collection.modelOp_ne_mismatch
    (registry : Option String → Option EmbeddingModel) (c : CollectionState) :
    Collection.modelOp registry c ≠ .error .modelMismatch := by
  unfold Collection.modelOp
  cases c._model with
  | some m => simp
  | none =>
    cases registry c._model_id with
    | some m => simp
    | none => simp

/-- The lookup-or-create step never raises the constructor's mismatch error. -/
theorem Collection.idResolve_ne_mismatch
    (registry : Option String → Option EmbeddingModel) (db : Db)
    (c : CollectionState) :
    Collection.idResolve registry db c ≠ .error .modelMismatch := by
  unfold Collection.idResolve
  cases hfind : db.lookupCollection c.name with
  | some row => simp
  | none =>
    cases hmo : Collection.modelOp registry c with
    | error e =>
      simp only
      intro h
      exact Collection.modelOp_ne_mismatch registry c
        (by rw [hmo]; exact congrArg Except.error (Except.error.inj h))
    | ok p => simp [hmo]

/-- `Collection.id` never raises the constructor's mismatch error. -/
theorem Collection.idOp_ne_mismatch
    (registry : Option String → Option EmbeddingModel) (db : Db)
    (c : CollectionState) :
    Collection.idOp registry db c ≠ .error .modelMismatch := by
  unfold Collection.idOp
  cases c._id with
  | some j => simp
  | none => exact Collection.idResolve_ne_mismatch registry _ c

/-- Turning a 32-bit value into its four little-endian bytes and back is the
identity. -/
theorem decode_word (w : Nat) (h : w < 2 ^ 32) :
    w % 256 + w / 256 % 256 * 256 + w / 256 ^ 2 % 256 * 256 ^ 2 +
      w / 256 ^ 3 % 256 * 256 ^ 3 = w := by
  have h2 : (256 : Nat) ^ 2 = 65536 := by norm_num
  have h3 : (256 : Nat) ^ 3 = 16777216 := by norm_num
  have h32 : (2 : Nat) ^ 32 = 4294967296 := by norm_num
  rw [h2, h3] at *
  rw [h32] at h
  omega

/-! ### The claims -/

/-- C4: for every finite sequence `v` of single-precision-representable
floats (each represented by its 32-bit pattern), `decode (encode v) = v`:
`encode` writes each element as a 4-byte little-endian IEEE-754 single value
in input order with no separator or header, and `decode` inverts it. -/
theorem C4_codec_roundtrip (v : List Nat) (h : ∀ w ∈ v, w < 2 ^ 32) :
    decode (encode v) = some v := by
  induction v with
  | nil => rfl
  | cons w ws ih =>
    have hw : w < 2 ^ 32 := h w (List.mem_cons_self _ _)
    have hws : decode (encode ws) = some ws :=
      ih (fun x hx => h x (List.mem_cons_of_mem _ hx))
    have henc : encode (w :: ws) =
        w % 256 :: w / 256 % 256 :: w / 256 ^ 2 % 256 :: w / 256 ^ 3 % 256 ::
          encode ws := rfl
    rw [henc]
    show (decode (encode ws)).map _ = some (w :: ws)
    rw [hws, Option.map_some']
    rw [decode_word w hw]

/-- C4 witness: the round trip at a concrete vector containing 0, 1 and the
extreme 32-bit patterns. -/
theorem C4_codec_roundtrip_witness :
    decode (encode [0, 1, 4294967295, 305419896]) =
      some [0, 1, 4294967295, 305419896] :=
  C4_codec_roundtrip [0, 1, 4294967295, 305419896] (by decide)

/-- C6: `embed_multi` and `embed_multi_with_metadata` fail with the
not-implemented signal on every input, producing no new database state. -/
theorem C6_multi_embed_not_implemented (db : Db) (c : CollectionState)
    (id_text_map : List (String × String)) (store : Bool)
    (id_text_metadata_map :
      List (String × (String × List (String × String)))) :
    Collection.embed_multi db c id_text_map store = .error .notImplemented ∧
    Collection.embed_multi_with_metadata db c id_text_metadata_map =
      .error .notImplemented :=
  ⟨rfl, rfl⟩

/-- C10: once a handle's `_id` is cached, `Collection.id` returns that same
integer and leaves any database — however it has changed since — untouched. -/
theorem C10_id_cached_no_db_access
    (registry : Option String → Option EmbeddingModel) (db : Db)
    (c : CollectionState) (i : Nat) (h : c._id = some i) :
    Collection.idOp registry db c = .ok (i, c, db) := by
  unfold Collection.idOp
  rw [h]

/-- C10 witness: a handle with cached id 7 queried against a database whose
`collections` table no longer holds any row. -/
theorem C10_id_cached_no_db_access_witness :
    Collection.idOp (fun _ => none) ⟨true, [], [], 9⟩
        ⟨"X", none, some "m", some 7⟩ =
      .ok (7, ⟨"X", none, some "m", some 7⟩, ⟨true, [], [], 9⟩) :=
  C10_id_cached_no_db_access (fun _ => none) ⟨true, [], [], 9⟩
    ⟨"X", none, some "m", some 7⟩ 7 rfl

/-- C3: with the schema initialized, `count` returns `.ok 0` — not an error —
when no collection row with the name exists, and likewise returns `.ok 0` for
an existing collection that has no embedding rows. -/
theorem C3_count_zero (db : Db) (name : String)
    (hschema : db.schemaInitialized = true) :
    (db.lookupCollection name = none → Collection.countOp db name = .ok 0) ∧
    (∀ row, db.lookupCollection name = some row →
      (∀ e ∈ db.embeddings, e.collection_id ≠ row.id) →
      Collection.countOp db name = .ok 0) := by
  constructor
  · intro hnone
    unfold Collection.countOp
    rw [hschema, hnone]
    rfl
  · intro row hrow hempty
    unfold Collection.countOp
    rw [hschema, hrow]
    simp only [if_true]
    have : db.embeddings.filter (fun e => e.collection_id == row.id) = [] := by
      rw [List.filter_eq_nil_iff]
      intro e he
      simp only [beq_iff_eq]
      exact hempty e he
    rw [this]
    rfl

/-- C3 witness: counting a never-created name, and counting an existing empty
collection, both yield 0. -/
theorem C3_count_zero_witness :
    Collection.countOp ⟨true, [⟨1, "X", "m"⟩], [], 2⟩ "nope" = .ok 0 ∧
    Collection.countOp ⟨true, [⟨1, "X", "m"⟩], [], 2⟩ "X" = .ok 0 :=
  ⟨(C3_count_zero ⟨true, [⟨1, "X", "m"⟩], [], 2⟩ "nope" rfl).1 rfl,
   (C3_count_zero ⟨true, [⟨1, "X", "m"⟩], [], 2⟩ "X" rfl).2 ⟨1, "X", "m"⟩ rfl
     (by intro e he; cases he)⟩

/-- C9: constructing a handle for a name absent from the database, with
neither a model nor a model_id and a registry that resolves nothing for a
missing identifier, fails already in the constructor with the
"no model specified and none found" configuration error: identity resolution
is eager, not deferred to the first `embed`. -/
theorem C9_eager_construction_no_model
    (registry : Option String → Option EmbeddingModel) (db : Db)
    (name : String)
    (hreg : registry none = none)
    (habsent : db.schemaInitialized = false ∨ db.lookupCollection name = none) :
    Collection.init registry db name none none = .error .noModel := by
  unfold Collection.init
  rw [show mismatchCheck none none = false from rfl]
  simp only [Bool.false_eq_true, if_false]
  unfold Collection.idOp
  simp only
  have hlook :
      (if db.schemaInitialized then db else applyMigrations db).lookupCollection
        name = none := by
    cases hs : db.schemaInitialized with
    | false =>
      simp only [Bool.false_eq_true, if_false]
      unfold applyMigrations
      rw [hs]
      simp [Db.lookupCollection]
    | true =>
      simp only [if_true]
      rcases habsent with h | h
      · rw [hs] at h; cases h
      · exact h
  unfold Collection.idResolve
  rw [hlook]
  unfold Collection.modelOp
  simp only
  rw [hreg]

/-- C9 witness: a fresh database, no model, no model_id, empty registry. -/
theorem C9_eager_construction_no_model_witness :
    Collection.init (fun _ => none) ⟨false, [], [], 1⟩ "X" none none =
      .error .noModel :=
  C9_eager_construction_no_model (fun _ => none) ⟨false, [], [], 1⟩ "X" rfl
    (Or.inl rfl)

/-- The registry used by the C1 counterexample: it resolves the identifiers
`m1` and `m2` to distinct models. -/
def twoModelRegistry : Option String → Option EmbeddingModel
  | some "m1" => some ⟨"m1", fun _ => []⟩
  | some "m2" => some ⟨"m2", fun _ => []⟩
  | _ => none

/-- C1 counterexample: create collection `X` with `model_id = "m1"` on a fresh
database (the first handle resolves `_model_id = some "m1"`), then construct a
second handle for `X` with `model_id = "m2"` on the resulting database. The
second handle gets the same integer id (1) but its resolved `_model_id` is
`"m2"`, not the stored `"m1"`: the caller-supplied identifier takes precedence
over the stored one, refuting the claim's "regardless of which model_id" and
"stored model_id takes precedence" parts. -/
theorem C1_identity_counterexample :
    ((Collection.init twoModelRegistry ⟨false, [], [], 1⟩ "X" none
        (some "m1")).toOption.bind
      (fun p =>
        (Collection.init twoModelRegistry p.2 "X" none
            (some "m2")).toOption.map
          (fun q => (p.1._id, p.1._model_id, q.1._id, q.1._model_id)))) =
      some (some 1, some "m1", some 1, some "m2") := rfl

/-- C1 amended: constructing a second handle for an existing name (any model
or model_id passing the constructor's mismatch check) yields the same integer
id as the stored row and writes nothing; its resolved `_model_id` equals the
stored one exactly when no model_id was supplied, while a caller-supplied
model_id is kept, taking precedence over the stored value. -/
theorem C1_identity_amended
    (registry : Option String → Option EmbeddingModel) (db : Db)
    (name : String) (model : Option EmbeddingModel) (mid : Option String)
    (row : CollectionRow)
    (hschema : db.schemaInitialized = true)
    (hfind : db.lookupCollection name = some row)
    (hchk : mismatchCheck model mid = false) :
    ∃ c, Collection.init registry db name model mid = .ok (c, db) ∧
      c._id = some row.id ∧
      c._model_id = (match mid with
        | none => some row.model
        | some s => some s) := by
  refine ⟨⟨name, model,
    (match mid with | none => some row.model | some s => some s),
    some row.id⟩, ?_, rfl, rfl⟩
  unfold Collection.init
  rw [hchk]
  simp only [Bool.false_eq_true, if_false]
  unfold Collection.idOp
  simp only
  rw [hschema]
  simp only [if_true]
  unfold Collection.idResolve
  rw [hfind]
  cases mid <;> rfl

/-- C1 amended, witness: an existing collection `X` stored with model `m1`;
a second handle constructed with `model_id = "m2"` returns the stored id 5 and
keeps `_model_id = "m2"`. -/
theorem C1_identity_amended_witness :
    ∃ c, Collection.init (fun _ => none) ⟨true, [⟨5, "X", "m1"⟩], [], 6⟩ "X"
        none (some "m2") = .ok (c, ⟨true, [⟨5, "X", "m1"⟩], [], 6⟩) ∧
      c._id = some 5 ∧ c._model_id = some "m2" :=
  C1_identity_amended (fun _ => none) ⟨true, [⟨5, "X", "m1"⟩], [], 6⟩ "X" none
    (some "m2") ⟨5, "X", "m1"⟩ rfl rfl rfl

/-- C8 counterexample: construction with both a model instance (whose
`model_id` is `"m"`) and the differing supplied identifier `""` succeeds —
Python's `if model and model_id and ...` treats the empty-string `model_id` as
falsy and skips the check — so no configuration error is raised even though
the two identifiers disagree. -/
theorem C8_mismatch_counterexample :
    (Collection.init (fun _ => none) ⟨true, [], [], 1⟩ "Y"
        (some ⟨"m", fun _ => []⟩) (some "")).toOption.map
      (fun p => (p.1._id, p.1._model_id)) = some (some 1, some "") := rfl

/-- C8 amended: construction fails with the mismatch configuration error
exactly when a model instance and a *non-empty* model identifier are both
supplied and their identifiers disagree; with an empty-string identifier
(falsy in Python), agreeing identifiers, or at most one of the two supplied,
the mismatch error is never raised. -/
theorem C8_mismatch_amended
    (registry : Option String → Option EmbeddingModel) (db : Db)
    (name : String) (model : Option EmbeddingModel) (mid : Option String) :
    Collection.init registry db name model mid = .error .modelMismatch ↔
    ∃ m s, model = some m ∧ mid = some s ∧ s ≠ "" ∧ m.model_id ≠ s := by
  constructor
  · intro h
    unfold Collection.init at h
    cases hchk : mismatchCheck model mid with
    | true =>
      cases model with
      | none => simp [mismatchCheck] at hchk
      | some m =>
        cases mid with
        | none => simp [mismatchCheck] at hchk
        | some s =>
          simp only [mismatchCheck, Bool.and_eq_true, bne_iff_ne] at hchk
          exact ⟨m, s, rfl, rfl, hchk.1, hchk.2⟩
    | false =>
      rw [hchk] at h
      simp only [Bool.false_eq_true, if_false] at h
      exfalso
      cases hio : Collection.idOp registry db
          ⟨name, model, mid, none⟩ with
      | error e =>
        rw [hio] at h
        cases h
        exact Collection.idOp_ne_mismatch registry db ⟨name, model, mid, none⟩
          hio
      | ok p =>
        obtain ⟨i, c, db'⟩ := p
        rw [hio] at h
        cases h
  · rintro ⟨m, s, rfl, rfl, hs, hne⟩
    unfold Collection.init
    rw [show mismatchCheck (some m) (some s) = true by
      simp [mismatchCheck, bne_iff_ne]; exact ⟨hs, hne⟩]
    rfl

/-- `Collection.model` on success caches the returned model in the handle. -/
theorem Collection.modelOp_sets_model
    (registry : Option String → Option EmbeddingModel) (c : CollectionState)
    (m : EmbeddingModel) (ca : CollectionState)
    (h : Collection.modelOp registry c = .ok (m, ca)) :
    ca._model = some m := by
  unfold Collection.modelOp at h
  cases hm : c._model with
  | some m0 => rw [hm] at h; cases h; exact hm
  | none =>
    rw [hm] at h
    cases hr : registry c._model_id with
    | some m0 => rw [hr] at h; cases h; rfl
    | none => rw [hr] at h; cases h

/-- Every pair returned by `similar_by_vector` (on a handle with a cached id)
comes from a stored embedding row of the collection that passed the skip
filter, and carries that row's id. -/
theorem Collection.similar_by_vector_mem
    (registry : Option String → Option EmbeddingModel) (db : Db)
    (c : CollectionState) (cid : Nat) (score : List Nat → Rat) (number : Nat)
    (skip_id : Option String) (hc : c._id = some cid)
    (c' : CollectionState) (db' : Db) (res : List (String × Rat))
    (hres : Collection.similar_by_vector registry db c score number skip_id =
      .ok (c', db', res))
    (p : String × Rat) (hp : p ∈ res) :
    ∃ r ∈ db.embeddings, r.collection_id = cid ∧ skipFilter skip_id r = true ∧
      p.1 = r.id := by
  unfold Collection.similar_by_vector at hres
  rw [Collection.idOp_cached registry db c cid hc] at hres
  cases hres
  have hp1 := List.mem_of_mem_take hp
  rw [List.mem_mergeSort] at hp1
  obtain ⟨r, hrmem, hrp⟩ := List.mem_map.mp hp1
  obtain ⟨hrdb, hrpred⟩ := List.mem_filter.mp hrmem
  rw [Bool.and_eq_true] at hrpred
  exact ⟨r, hrdb, beq_iff_eq.mp hrpred.1, hrpred.2, by rw [← hrp]⟩

/-- C7: on a handle with a resolved id, `similar_by_vector` succeeds (also
over a collection with zero embedding rows, where it returns the empty list
rather than an error), returns at most `number` pairs, and returns them
sorted by descending score. -/
theorem C7_similar_by_vector_ranked
    (registry : Option String → Option EmbeddingModel) (db : Db)
    (c : CollectionState) (cid : Nat) (score : List Nat → Rat) (number : Nat)
    (skip_id : Option String) (hc : c._id = some cid) :
    ∃ res, Collection.similar_by_vector registry db c score number skip_id =
        .ok (c, db, res) ∧
      res.length ≤ number ∧
      res.Pairwise (fun a b => b.2 ≤ a.2) ∧
      (db.embeddings.filter (fun r => r.collection_id == cid) = [] →
        res = []) := by
  refine ⟨(((db.embeddings.filter
      (fun r => r.collection_id == cid && skipFilter skip_id r)).map
        (fun r => (r.id, score r.embedding))).mergeSort
          (fun a b => decide (b.2 ≤ a.2))).take number, ?_, ?_, ?_, ?_⟩
  · unfold Collection.similar_by_vector
    rw [Collection.idOp_cached registry db c cid hc]
  · exact List.length_take_le _ _
  · have hs := @List.sorted_mergeSort (String × Rat)
      (fun a b => decide (b.2 ≤ a.2))
      (fun a b d hab hbd => by
        simp only [decide_eq_true_eq] at *
        exact le_trans hbd hab)
      (fun a b => by
        simp only [Bool.or_eq_true, decide_eq_true_eq]
        exact le_total b.2 a.2)
      ((db.embeddings.filter
        (fun r => r.collection_id == cid && skipFilter skip_id r)).map
          (fun r => (r.id, score r.embedding)))
    exact (List.Pairwise.sublist (List.take_sublist _ _) hs).imp
      (fun h => of_decide_eq_true h)
  · intro hempty
    have hnil : db.embeddings.filter
        (fun r => r.collection_id == cid && skipFilter skip_id r) = [] := by
      rw [List.filter_eq_nil_iff] at hempty ⊢
      intro r hr hpred
      rw [Bool.and_eq_true] at hpred
      exact hempty r hr hpred.1
    rw [hnil]
    simp

/-- C7 witness: a two-row collection queried with a constant score and
`number = 5` succeeds with a short, sorted result; the hypothesis is the
handle's cached id. -/
theorem C7_similar_by_vector_ranked_witness :
    ∃ res, Collection.similar_by_vector (fun _ => none)
        ⟨true, [⟨1, "X", "m"⟩],
          [⟨1, "a", [0, 0, 0, 0], none, none⟩,
           ⟨1, "b", [1, 0, 0, 0], none, none⟩], 2⟩
        ⟨"X", none, some "m", some 1⟩ (fun _ => 1) 5 none =
        .ok (⟨"X", none, some "m", some 1⟩,
          ⟨true, [⟨1, "X", "m"⟩],
            [⟨1, "a", [0, 0, 0, 0], none, none⟩,
             ⟨1, "b", [1, 0, 0, 0], none, none⟩], 2⟩, res) ∧
      res.length ≤ 5 ∧
      res.Pairwise (fun a b => b.2 ≤ a.2) ∧
      (List.filter (fun r => r.collection_id == 1)
          [⟨1, "a", [0, 0, 0, 0], none, none⟩,
           (⟨1, "b", [1, 0, 0, 0], none, none⟩ : EmbeddingRow)] = [] →
        res = []) :=
  C7_similar_by_vector_ranked (fun _ => none)
    ⟨true, [⟨1, "X", "m"⟩],
      [⟨1, "a", [0, 0, 0, 0], none, none⟩,
       ⟨1, "b", [1, 0, 0, 0], none, none⟩], 2⟩
    ⟨"X", none, some "m", some 1⟩ 1 (fun _ => 1) 5 none rfl

/-- C2 counterexample: a collection holding one record whose id is the empty
string. `similar_by_id` with `id = ""` finds the record, but
`similar_by_vector`'s `if skip_id:` treats the empty string as falsy and adds
no exclusion clause, so the record is returned as its own neighbor. -/
theorem C2_self_exclusion_counterexample :
    Collection.similar_by_id (fun _ => none)
        ⟨true, [⟨1, "X", "m"⟩], [⟨1, "", [0, 0, 0, 0], none, none⟩], 2⟩
        ⟨"X", none, some "m", some 1⟩ (fun _ _ => 1) "" 5 =
      .ok (⟨"X", none, some "m", some 1⟩,
        ⟨true, [⟨1, "X", "m"⟩], [⟨1, "", [0, 0, 0, 0], none, none⟩], 2⟩,
        [("", 1)]) := by
  simp [Collection.similar_by_id, Collection.similar_by_vector,
    Collection.idOp, skipFilter]

/-- C2 amended: for every record id X other than the empty string,
`similar_by_id(id=X)` never returns X among its results; for `X = ""` the
exclusion clause is skipped (Python's `if skip_id:` is false for the empty
string) and X can be returned as its own neighbor. -/
theorem C2_self_exclusion_amended
    (registry : Option String → Option EmbeddingModel) (db : Db)
    (c : CollectionState) (sim : List Nat → List Nat → Rat) (id : String)
    (number : Nat) (hid : id ≠ "") {c' : CollectionState} {db' : Db}
    {res : List (String × Rat)}
    (hres : Collection.similar_by_id registry db c sim id number =
      .ok (c', db', res)) :
    ∀ p ∈ res, p.1 ≠ id := by
  intro p hp
  unfold Collection.similar_by_id at hres
  split at hres
  · cases hres
  case _ cid c1 db1 hio =>
    split at hres
    · cases hres
    case _ m rest hfil =>
      have hc1 : c1._id = some cid :=
        Collection.idOp_sets_id registry db c cid c1 db1 hio
      obtain ⟨r, hr, hrcid, hskip, hpid⟩ :=
        Collection.similar_by_vector_mem registry db1 c1 cid _ number (some id)
          hc1 c' db' res hres p hp
      rw [hpid]
      simp only [skipFilter] at hskip
      rw [beq_eq_false_iff_ne.mpr hid] at hskip
      simp only [Bool.false_eq_true, if_false, bne_iff_ne] at hskip
      exact hskip

/-- C2 amended, witness: a two-record collection; querying by id `"a"` returns
only `("b", 1)`, whose id differs from `"a"`. -/
theorem C2_self_exclusion_amended_witness : ("b", (1 : Rat)).1 ≠ "a" :=
  C2_self_exclusion_amended (fun _ => none)
    ⟨true, [⟨1, "X", "m"⟩],
      [⟨1, "a", [0, 0, 0, 0], none, none⟩,
       ⟨1, "b", [1, 0, 0, 0], none, none⟩], 2⟩
    ⟨"X", none, some "m", some 1⟩ (fun _ _ => 1) "a" 5 (by decide)
    (show Collection.similar_by_id (fun _ => none)
        ⟨true, [⟨1, "X", "m"⟩],
          [⟨1, "a", [0, 0, 0, 0], none, none⟩,
           ⟨1, "b", [1, 0, 0, 0], none, none⟩], 2⟩
        ⟨"X", none, some "m", some 1⟩ (fun _ _ => 1) "a" 5 =
      .ok (⟨"X", none, some "m", some 1⟩,
        ⟨true, [⟨1, "X", "m"⟩],
          [⟨1, "a", [0, 0, 0, 0], none, none⟩,
           ⟨1, "b", [1, 0, 0, 0], none, none⟩], 2⟩,
        [("b", 1)]) by
      simp [Collection.similar_by_id, Collection.similar_by_vector,
        Collection.idOp, skipFilter])
    ("b", 1) (List.mem_singleton.mpr rfl)

/-- C5: after a successful `embed` of some id, a second `embed` with the same
id into the same collection — whatever its text, metadata or store flag —
fails with the uniqueness violation (the spec-modelled
`PRIMARY KEY(collection_id, id)`), returns no new database state, and the
first record is still present with its original content. -/
theorem C5_duplicate_embed
    (registry : Option String → Option EmbeddingModel) (db : Db)
    (c : CollectionState) (id text text2 : String) (meta meta2 : Option String)
    (store store2 : Bool) {c1 : CollectionState} {db1 : Db}
    (h1 : Collection.embedOp registry db c id text meta store = .ok (c1, db1)) :
    Collection.embedOp registry db1 c1 id text2 meta2 store2 =
      .error .uniquenessViolation ∧
    ∃ r ∈ db1.embeddings, r.id = id ∧ c1._id = some r.collection_id ∧
      r.content = (if store then some text else none) := by
  unfold Collection.embedOp at h1
  split at h1
  · cases h1
  case _ m ca hmo =>
    split at h1
    · cases h1
    case _ cid cb db2 hio =>
      split at h1
      · cases h1
      case _ dbI hins =>
        cases h1
        have hc1 : c1._id = some cid :=
          Collection.idOp_sets_id registry db ca cid c1 db2 hio
        have hcam : ca._model = some m :=
          Collection.modelOp_sets_model registry c m ca hmo
        have hc1m : c1._model = some m :=
          Collection.idOp_keeps_model registry db ca m cid c1 db2 hcam hio
        unfold Db.insertEmbedding at hins
        split at hins
        · cases hins
        case _ hany =>
          cases hins
          have hmem : embedRow cid id text meta store (m.embed text) ∈
              db2.embeddings ++ [embedRow cid id text meta store (m.embed text)] :=
            List.mem_append_right _ (List.mem_singleton.mpr rfl)
          have hany2 : (((⟨db2.schemaInitialized, db2.collections,
              db2.embeddings ++ [embedRow cid id text meta store (m.embed text)],
              db2.nextCollectionId⟩ : Db).embeddings).any
              (fun r => r.collection_id ==
                  (embedRow cid id text2 meta2 store2 (m.embed text2)).collection_id &&
                r.id == (embedRow cid id text2 meta2 store2 (m.embed text2)).id)) =
              true := by
            rw [List.any_eq_true]
            exact ⟨embedRow cid id text meta store (m.embed text), hmem,
              by simp [embedRow]⟩
          refine ⟨?_, ?_⟩
          · unfold Collection.embedOp
            rw [show Collection.modelOp registry c1 = .ok (m, c1) by
              unfold Collection.modelOp; rw [hc1m]]
            show (match Collection.idOp registry
                (⟨db2.schemaInitialized, db2.collections,
                  db2.embeddings ++ [embedRow cid id text meta store (m.embed text)],
                  db2.nextCollectionId⟩ : Db) c1 with
              | Except.error e => Except.error e
              | Except.ok (cid, cc, dbb) =>
                match dbb.insertEmbedding
                    (embedRow cid id text2 meta2 store2 (m.embed text2)) with
                | Except.error e => Except.error e
                | Except.ok dbb => Except.ok (cc, dbb)) =
              Except.error Err.uniquenessViolation
            rw [Collection.idOp_cached registry
              (⟨db2.schemaInitialized, db2.collections,
                db2.embeddings ++ [embedRow cid id text meta store (m.embed text)],
                db2.nextCollectionId⟩ : Db) c1 cid hc1]
            show (match (⟨db2.schemaInitialized, db2.collections,
                db2.embeddings ++ [embedRow cid id text meta store (m.embed text)],
                db2.nextCollectionId⟩ : Db).insertEmbedding
                  (embedRow cid id text2 meta2 store2 (m.embed text2)) with
              | Except.error e => Except.error e
              | Except.ok dbb => Except.ok (c1, dbb)) =
              Except.error Err.uniquenessViolation
            unfold Db.insertEmbedding
            rw [if_pos hany2]
          · exact ⟨embedRow cid id text meta store (m.embed text), hmem, rfl,
              hc1, rfl⟩

/-- C5 witness: a concrete first `embed` of id `"a"` (with `store = true`),
followed by a second `embed` of `"a"`, which fails with the uniqueness
violation while the first record is still stored. -/
theorem C5_duplicate_embed_witness :
    Collection.embedOp (fun _ => none)
        ⟨true,
          [⟨1, "X", "m"⟩],
          [⟨1, "a", encode [7], some "hello", none⟩], 2⟩
        ⟨"X", some ⟨"m", fun _ => [7]⟩, some "m", some 1⟩
        "a" "other" none false = .error .uniquenessViolation ∧
    ∃ r ∈ (⟨true, [⟨1, "X", "m"⟩],
        [⟨1, "a", encode [7], some "hello", none⟩], 2⟩ : Db).embeddings,
      r.id = "a" ∧
      (⟨"X", some ⟨"m", fun _ => [7]⟩, some "m", some 1⟩ :
        CollectionState)._id = some r.collection_id ∧
      r.content = (if true then some "hello" else none) :=
  C5_duplicate_embed (fun _ => none)
    ⟨true, [⟨1, "X", "m"⟩], [], 2⟩
    ⟨"X", some ⟨"m", fun _ => [7]⟩, some "m", some 1⟩
    "a" "hello" "other" none none true false rfl
